import Mathlib

/-!
Verification development for a proximity-alarm parking system.

The program measures distance with an ultrasonic sensor (echo-pulse timing
captured by an input-capture interrupt), classifies the distance into one of
five alert bands, and drives an LCD readout, three LEDs and a buzzer.

Shallow embedding of:
  * `hal/ultrasonic.c` — the edge-capture interrupt handler
    `Ultrasonic_edgeProcessing` over an explicit driver-state record, the
    tick-to-distance conversion in `Ultrasonic_readDistance`, the busy-wait
    loop, and the straight-line sequence of effects of
    `Ultrasonic_readDistance` as an event list;
  * `app/app.c` — the distance-band cascade of `StateMachineHandler` and the
    five band handler routines as lists of actuator actions.
-/

/- ======================= app.c : data model ======================= -/

/-- States of the application state machine, in the source declaration order
of the `STATE_MACHINE` enum in `app/app.c`. -/
inductive STATE_MACHINE where
  | IDLE
  | DETECTED
  | SAFE
  | WARNING
  | DANGER
deriving DecidableEq, Repr

/-- from `app/app.c`: `#define DISTANCE_DANGER 5` -/
def DISTANCE_DANGER : Nat := 5

/-- from `app/app.c`: `#define DISTANCE_WARNING_MAX 10` -/
def DISTANCE_WARNING_MAX : Nat := 10

/-- from `app/app.c`: `#define DISTANCE_SAFE_MAX 15` -/
def DISTANCE_SAFE_MAX : Nat := 15

/-- from `app/app.c`: `#define DISTANCE_DETECTED_MAX 20` -/
def DISTANCE_DETECTED_MAX : Nat := 20

/-- The band-selection cascade at the top of `StateMachineHandler` in
`app/app.c` (lines 155–167): an ascending chain of `if (g_distance <= …)`
tests, `DANGER` first, `IDLE` in the final `else`.  `g_distance` is a
`uint16`; the cascade is embedded over `Nat` (on every `uint16` value the
two agree, and the chain of comparisons is defined for all of `Nat`). -/
def classify (g_distance : Nat) : STATE_MACHINE :=
  if g_distance ≤ DISTANCE_DANGER then .DANGER
  else if g_distance ≤ DISTANCE_WARNING_MAX then .WARNING
  else if g_distance ≤ DISTANCE_SAFE_MAX then .SAFE
  else if g_distance ≤ DISTANCE_DETECTED_MAX then .DETECTED
  else .IDLE

/-- The five band conditions as the specification's table states them
(Danger `d ≤ 5`, Warning `6 ≤ d ≤ 10`, Safe `11 ≤ d ≤ 15`,
Detected `16 ≤ d ≤ 20`, Idle `d > 20`), used to compare the code's cascade
against the spec's partition of the non-negative integers. -/
def bandCondition : STATE_MACHINE → Nat → Bool
  | .DANGER, d => d ≤ 5
  | .WARNING, d => 6 ≤ d && d ≤ 10
  | .SAFE, d => 11 ≤ d && d ≤ 15
  | .DETECTED, d => 16 ≤ d && d ≤ 20
  | .IDLE, d => 20 < d

/- ================= ultrasonic.c : conversion and driver state ============ -/

/-- The tick-to-distance conversion on line 107 of `hal/ultrasonic.c`:
`l_distance = (uint16) ((g_timeHigh) / 117)`.  `g_timeHigh` is a `uint16`
(so the argument is its value, below `2^16`); the quotient is reduced
`% 2^16` for the final cast back to `uint16`. -/
def Ultrasonic_readDistance_convert (g_timeHigh : Nat) : Nat :=
  (g_timeHigh / 117) % 65536

/-- ICU edge-detection polarity, spelled as in the ICU configuration used by
`hal/ultrasonic.c` (`RAISING`, `FALLING`). -/
inductive ICU_EdgeType where
  | RAISING
  | FALLING
deriving DecidableEq, Repr

/-- The driver state of `hal/ultrasonic.c` visible to
`Ultrasonic_edgeProcessing`: the three file-scope variables
`g_timeHigh : uint16`, `g_edgeCount : uint8`, `g_readyFlag : uint8`, plus
the ICU configuration the handler mutates (edge-detection polarity, and
whether the handler has cleared the ICU timer).  The value read back from
the input-capture register at a falling edge depends on real elapsed time,
so each handler invocation takes it as an oracle argument. -/
structure UltraState where
  g_timeHigh : Nat
  g_edgeCount : Nat
  g_readyFlag : Nat
  icuEdge : ICU_EdgeType
  icuTimerZeroed : Bool
deriving DecidableEq, Repr

/-- Initial values of the file-scope variables in `hal/ultrasonic.c`
(`g_timeHigh = 0`, `g_edgeCount = 0`, `g_readyFlag = 0`) together with the
rising-edge ICU configuration installed by `Ultrasonic_init`. -/
def initUltraState : UltraState :=
  { g_timeHigh := 0, g_edgeCount := 0, g_readyFlag := 0,
    icuEdge := .RAISING, icuTimerZeroed := false }

/-- `Ultrasonic_edgeProcessing` from `hal/ultrasonic.c` (lines 122–135), the
ICU interrupt callback.  `capture` is the `uint16` value
`ICU_getInputCaptureValue()` returns at this edge (stored reduced `% 2^16`);
`g_edgeCount` is a `uint8`, so its increment is reduced `% 2^8`;
`LOGIC_HIGH` is 1. -/
def Ultrasonic_edgeProcessing (capture : Nat) (s : UltraState) : UltraState :=
  if s.g_edgeCount = 0 then
    { s with icuTimerZeroed := true,
             icuEdge := .FALLING,
             g_edgeCount := (s.g_edgeCount + 1) % 256 }
  else if s.g_edgeCount = 1 then
    { s with g_timeHigh := capture % 65536,
             g_readyFlag := 1,
             icuEdge := .RAISING,
             g_edgeCount := 0 }
  else s

/-- Folding a sequence of edge events (their capture values, in arrival
order) through the interrupt handler. -/
def runEdges (caps : List Nat) (s : UltraState) : UltraState :=
  caps.foldl (fun st c => Ultrasonic_edgeProcessing c st) s

/- ================= ultrasonic.c : busy-wait and effect trace ============= -/

/-- The busy-wait `while (!g_readyFlag);` on line 98 of `hal/ultrasonic.c`,
embedded as fuel-bounded polling of the volatile flag: `flag n` is the value
the n-th read of `g_readyFlag` observes (`true` when non-zero).
`busyWait flag i fuel` returns the index of the first raised read at or
after poll `i` when one occurs within `fuel` polls; the C loop itself has no
bound, which is expressed by quantifying over every fuel. -/
def busyWait (flag : Nat → Bool) (i : Nat) : Nat → Option Nat
  | 0 => none
  | fuel + 1 => if flag i then some i else busyWait flag (i + 1) fuel

/-- A flag stream on which no poll ever observes the ready flag set: the
case of a sensor that never produces a falling edge. -/
def neverReady : Nat → Bool := fun _ => false

/-- One effect in the straight-line body of `Ultrasonic_readDistance`
(`hal/ultrasonic.c`, lines 88–110).  The vocabulary also contains a
`writeEdgeCount` constructor (a write to `g_edgeCount`, the EdgePhase
variable) so that its absence from the function's trace is expressible. -/
inductive MeasureStep where
  | setTriggerHigh
  | delayUs (n : Nat)
  | setTriggerLow
  | icuInterruptOn
  | busyWaitReady
  | icuInterruptOff
  | writeReadyFlag (v : Nat)
  | readTimeHigh
  | writeEdgeCount (v : Nat)
deriving DecidableEq, Repr

/-- `Ultrasonic_Trigger` (`hal/ultrasonic.c`, lines 68–78): trigger pin
high, 10 µs delay, trigger pin low. -/
def Ultrasonic_Trigger_steps : List MeasureStep :=
  [.setTriggerHigh, .delayUs 10, .setTriggerLow]

/-- The effects of `Ultrasonic_readDistance` in source order: the trigger
pulse, `ICU_interruptOn()`, the `while (!g_readyFlag);` busy-wait,
`ICU_interruptOff()`, `g_readyFlag = LOGIC_LOW`, and the read of
`g_timeHigh` in the distance computation on line 107. -/
def Ultrasonic_readDistance_steps : List MeasureStep :=
  Ultrasonic_Trigger_steps ++
    [.icuInterruptOn, .busyWaitReady, .icuInterruptOff,
     .writeReadyFlag 0, .readTimeHigh]

/-- Whether a step writes `g_edgeCount` (the EdgePhase variable). -/
def MeasureStep.writesEdgeCount : MeasureStep → Bool
  | .writeEdgeCount _ => true
  | _ => false

/-- Whether a step clears `g_readyFlag` (writes `LOGIC_LOW`, i.e. 0). -/
def MeasureStep.clearsReadyFlag : MeasureStep → Bool
  | .writeReadyFlag 0 => true
  | _ => false

/- ================= app.c : band handlers and actuator model ============= -/

/-- LED identifiers from the LED driver as used in `app/app.c`. -/
inductive LedId where
  | LED_BLUE_1
  | LED_GREEN_2
  | LED_RED_3
deriving DecidableEq, Repr

/-- What one LCD rendering routine of `app/app.c` puts on the display:
`LCD_dispDataDanger` writes the fixed `"      STOP      "` message;
`LCD_dispDataNorm` writes `"Distance= "`, the value of `g_distance`, `"cm"`. -/
inductive Readout where
  | stopMessage
  | distanceReadout (d : Nat)
deriving DecidableEq, Repr

/-- One actuator side effect performed by a state handler in `app/app.c`. -/
inductive AppAction where
  | lcdDispDanger
  | lcdDispNorm (d : Nat)
  | buzzerOn
  | buzzerOff
  | ledOn (l : LedId)
  | ledOff (l : LedId)
  | delayMs (n : Nat)
deriving DecidableEq, Repr

/-- Whether an action is a blocking delay. -/
def AppAction.isDelay : AppAction → Bool
  | .delayMs _ => true
  | _ => false

/-- `handleDangerState` (`app/app.c`, lines 195–207): STOP message, buzzer
on, all LEDs on, 200 ms delay, buzzer off, all LEDs off, 200 ms delay. -/
def handleDangerState : List AppAction :=
  [.lcdDispDanger, .buzzerOn,
   .ledOn .LED_RED_3, .ledOn .LED_GREEN_2, .ledOn .LED_BLUE_1,
   .delayMs 200,
   .buzzerOff,
   .ledOff .LED_RED_3, .ledOff .LED_GREEN_2, .ledOff .LED_BLUE_1,
   .delayMs 200]

/-- `handleWarningState` (`app/app.c`): numeric readout, buzzer off, all
LEDs on. -/
def handleWarningState (g_distance : Nat) : List AppAction :=
  [.lcdDispNorm g_distance, .buzzerOff,
   .ledOn .LED_RED_3, .ledOn .LED_GREEN_2, .ledOn .LED_BLUE_1]

/-- `handleSafeState` (`app/app.c`): numeric readout, buzzer off, red and
green on, blue off. -/
def handleSafeState (g_distance : Nat) : List AppAction :=
  [.lcdDispNorm g_distance, .buzzerOff,
   .ledOn .LED_RED_3, .ledOn .LED_GREEN_2, .ledOff .LED_BLUE_1]

/-- `handleDetectedState` (`app/app.c`): numeric readout, buzzer off, only
red on. -/
def handleDetectedState (g_distance : Nat) : List AppAction :=
  [.lcdDispNorm g_distance, .buzzerOff,
   .ledOn .LED_RED_3, .ledOff .LED_GREEN_2, .ledOff .LED_BLUE_1]

/-- `handleIdleState` (`app/app.c`): numeric readout, buzzer off, all LEDs
off. -/
def handleIdleState (g_distance : Nat) : List AppAction :=
  [.lcdDispNorm g_distance, .buzzerOff,
   .ledOff .LED_RED_3, .ledOff .LED_GREEN_2, .ledOff .LED_BLUE_1]

/-- `StateMachineHandler` (`app/app.c`, lines 155–186): select the band with
the cascade, then dispatch to the handler of that band. -/
def StateMachineHandler (g_distance : Nat) : STATE_MACHINE × List AppAction :=
  let st := classify g_distance
  (st,
    match st with
    | .DANGER => handleDangerState
    | .WARNING => handleWarningState g_distance
    | .SAFE => handleSafeState g_distance
    | .DETECTED => handleDetectedState g_distance
    | .IDLE => handleIdleState g_distance)

/-- The level state of the four actuator outputs plus what the LCD shows
(`none` before any rendering call). -/
structure ActuatorState where
  red : Bool
  green : Bool
  blue : Bool
  buzzer : Bool
  display : Option Readout
deriving DecidableEq, Repr

/-- Effect of one action on the actuator levels.  A `delayMs` holds the
current levels for its duration and changes nothing. -/
def applyAction (st : ActuatorState) (a : AppAction) : ActuatorState :=
  match a with
  | .lcdDispDanger => { st with display := some .stopMessage }
  | .lcdDispNorm d => { st with display := some (.distanceReadout d) }
  | .buzzerOn => { st with buzzer := true }
  | .buzzerOff => { st with buzzer := false }
  | .ledOn .LED_RED_3 => { st with red := true }
  | .ledOn .LED_GREEN_2 => { st with green := true }
  | .ledOn .LED_BLUE_1 => { st with blue := true }
  | .ledOff .LED_RED_3 => { st with red := false }
  | .ledOff .LED_GREEN_2 => { st with green := false }
  | .ledOff .LED_BLUE_1 => { st with blue := false }
  | .delayMs _ => st

/-- Run a handler's action list over the actuator state, in order. -/
def runActions (st : ActuatorState) (acts : List AppAction) : ActuatorState :=
  acts.foldl applyAction st

/- ======================= theorems ======================= -/

/-- Claim C1: the cascade in `StateMachineHandler` maps each boundary value
exactly as specified: 5 ↦ Danger, 6 ↦ Warning, 10 ↦ Warning, 11 ↦ Safe,
15 ↦ Safe, 16 ↦ Detected, 20 ↦ Detected, 21 ↦ Idle. -/
theorem classify_boundary_values :
    classify 5 = .DANGER ∧ classify 6 = .WARNING ∧ classify 10 = .WARNING ∧
    classify 11 = .SAFE ∧ classify 15 = .SAFE ∧ classify 16 = .DETECTED ∧
    classify 20 = .DETECTED ∧ classify 21 = .IDLE := by
  decide

/-- Claim C2: for every non-negative integer distance the cascade returns
exactly the band whose condition holds, and exactly one of the five band
conditions holds — the five conditions partition the whole non-negative
range with no gap and no overlap. -/
theorem classify_partition (d : Nat) :
    (∀ b : STATE_MACHINE, classify d = b ↔ bandCondition b d = true) ∧
    (∃! b : STATE_MACHINE, bandCondition b d = true) := by
  constructor
  · intro b
    cases b <;>
      simp only [classify, bandCondition, DISTANCE_DANGER, DISTANCE_WARNING_MAX,
        DISTANCE_SAFE_MAX, DISTANCE_DETECTED_MAX] <;>
      split_ifs <;>
      simp_all <;> omega
  · refine ⟨classify d, ?_, ?_⟩
    · simp only [classify, DISTANCE_DANGER, DISTANCE_WARNING_MAX,
        DISTANCE_SAFE_MAX, DISTANCE_DETECTED_MAX]
      split_ifs <;> simp [bandCondition] <;> omega
    · intro b hb
      revert hb
      cases b <;>
        simp only [classify, bandCondition, DISTANCE_DANGER, DISTANCE_WARNING_MAX,
          DISTANCE_SAFE_MAX, DISTANCE_DETECTED_MAX] <;>
        split_ifs <;>
        simp_all <;> omega

/-- Claim C2 witness: the partition theorem evaluated at distance 13. -/
theorem classify_partition_at_13 :
    (∀ b : STATE_MACHINE, classify 13 = b ↔ bandCondition b 13 = true) ∧
    (∃! b : STATE_MACHINE, bandCondition b 13 = true) :=
  classify_partition 13

/-- Claim C3: the conversion in `Ultrasonic_readDistance` is exact integer
division by 117 (truncating: the result `q` satisfies
`117 q ≤ t < 117 (q + 1)`), and maps 0 ↦ 0, 117 ↦ 1, 1170 ↦ 10, 200 ↦ 1. -/
theorem readDistance_convert_div117 (t : Nat) (h : t < 65536) :
    Ultrasonic_readDistance_convert t = t / 117 ∧
    Ultrasonic_readDistance_convert t * 117 ≤ t ∧
    t < (Ultrasonic_readDistance_convert t + 1) * 117 ∧
    Ultrasonic_readDistance_convert 0 = 0 ∧
    Ultrasonic_readDistance_convert 117 = 1 ∧
    Ultrasonic_readDistance_convert 1170 = 10 ∧
    Ultrasonic_readDistance_convert 200 = 1 := by
  have hq : t / 117 < 65536 := lt_of_le_of_lt (Nat.div_le_self t 117) h
  have he : Ultrasonic_readDistance_convert t = t / 117 := by
    simp [Ultrasonic_readDistance_convert, Nat.mod_eq_of_lt hq]
  refine ⟨he, ?_, ?_, by decide, by decide, by decide, by decide⟩
  · rw [he]
    omega
  · rw [he]
    omega

/-- Claim C3 witness: the conversion theorem evaluated at 200 ticks. -/
theorem readDistance_convert_at_200 :
    Ultrasonic_readDistance_convert 200 = 200 / 117 ∧
    Ultrasonic_readDistance_convert 200 * 117 ≤ 200 ∧
    200 < (Ultrasonic_readDistance_convert 200 + 1) * 117 ∧
    Ultrasonic_readDistance_convert 0 = 0 ∧
    Ultrasonic_readDistance_convert 117 = 1 ∧
    Ultrasonic_readDistance_convert 1170 = 10 ∧
    Ultrasonic_readDistance_convert 200 = 1 :=
  readDistance_convert_div117 200 (by decide)

/-- Claim C4: from `g_edgeCount = 0` (AwaitingRisingEdge) with `g_readyFlag`
unset, two `Ultrasonic_edgeProcessing` calls set the ready flag exactly once
— still unset after the first call, set after the second — record the
second call's capture value (the elapsed tick count) in `g_timeHigh`, and
return `g_edgeCount` to 0; a single call leaves the flag unset. -/
theorem edgeProcessing_two_edge_cycle (s : UltraState) (c1 c2 : Nat)
    (h0 : s.g_edgeCount = 0) (hr : s.g_readyFlag = 0) :
    (Ultrasonic_edgeProcessing c1 s).g_readyFlag = 0 ∧
    (Ultrasonic_edgeProcessing c1 s).g_edgeCount = 1 ∧
    (Ultrasonic_edgeProcessing c2 (Ultrasonic_edgeProcessing c1 s)).g_readyFlag = 1 ∧
    (Ultrasonic_edgeProcessing c2 (Ultrasonic_edgeProcessing c1 s)).g_timeHigh
      = c2 % 65536 ∧
    (Ultrasonic_edgeProcessing c2 (Ultrasonic_edgeProcessing c1 s)).g_edgeCount = 0 := by
  simp [Ultrasonic_edgeProcessing, h0, hr]

/-- Claim C4 witness: the two-edge cycle run from the driver's initial state
with capture values 3 and 585. -/
theorem edgeProcessing_two_edge_cycle_from_init :
    (Ultrasonic_edgeProcessing 3 initUltraState).g_readyFlag = 0 ∧
    (Ultrasonic_edgeProcessing 3 initUltraState).g_edgeCount = 1 ∧
    (Ultrasonic_edgeProcessing 585 (Ultrasonic_edgeProcessing 3 initUltraState)).g_readyFlag
      = 1 ∧
    (Ultrasonic_edgeProcessing 585 (Ultrasonic_edgeProcessing 3 initUltraState)).g_timeHigh
      = 585 % 65536 ∧
    (Ultrasonic_edgeProcessing 585 (Ultrasonic_edgeProcessing 3 initUltraState)).g_edgeCount
      = 0 :=
  edgeProcessing_two_edge_cycle initUltraState 3 585 rfl rfl

/-- Claim C5 counterexample: `Ultrasonic_readDistance` does not arm the edge
capture before the trigger pulse — its very first effect is driving the
trigger pin high, and no effect in its body ever writes `g_edgeCount`
(EdgePhase); the sole clear of `g_readyFlag` comes only at position 6,
after the busy-wait. -/
theorem readDistance_first_effect_is_trigger :
    Ultrasonic_readDistance_steps.head? = some .setTriggerHigh ∧
    Ultrasonic_readDistance_steps.filter MeasureStep.writesEdgeCount = [] ∧
    (Ultrasonic_readDistance_steps.takeWhile
      (fun e => ! MeasureStep.clearsReadyFlag e)).length = 6 := by
  decide

/-- Claim C5 amended: `Ultrasonic_readDistance` performs no arming step: its
first effect is the trigger pulse; it never writes `g_edgeCount` (EdgePhase
is returned to AwaitingRisingEdge by the interrupt handler's falling-edge
branch instead); and it clears `g_readyFlag` exactly once, after the
busy-wait completes and before `g_timeHigh` is read — not at the start of
the measurement cycle. -/
theorem readDistance_clears_ready_after_wait :
    Ultrasonic_readDistance_steps.head? = some .setTriggerHigh ∧
    Ultrasonic_readDistance_steps.filter MeasureStep.writesEdgeCount = [] ∧
    (Ultrasonic_readDistance_steps.filter MeasureStep.clearsReadyFlag).length = 1 ∧
    Ultrasonic_readDistance_steps.findIdx (· == MeasureStep.busyWaitReady) <
      Ultrasonic_readDistance_steps.findIdx MeasureStep.clearsReadyFlag ∧
    Ultrasonic_readDistance_steps.findIdx MeasureStep.clearsReadyFlag <
      Ultrasonic_readDistance_steps.findIdx (· == MeasureStep.readTimeHigh) := by
  decide

/-- Auxiliary: a successful bounded poll yields an index at which the flag
was observed set. -/
theorem busyWait_flag_of_isSome (flag : Nat → Bool) :
    ∀ fuel i, (busyWait flag i fuel).isSome → ∃ n, flag n = true := by
  intro fuel
  induction fuel with
  | zero => intro i h; simp [busyWait] at h
  | succ fuel ih =>
    intro i h
    by_cases hf : flag i
    · exact ⟨i, hf⟩
    · rw [busyWait, if_neg hf] at h
      exact ih (i + 1) h

/-- Auxiliary: if the flag is set at some poll index within the fuel bound,
the bounded poll succeeds. -/
theorem busyWait_isSome_of_flag (flag : Nat → Bool) :
    ∀ fuel i n, i ≤ n → n < i + fuel → flag n = true →
      (busyWait flag i fuel).isSome := by
  intro fuel
  induction fuel with
  | zero => intro i n h1 h2 _; omega
  | succ fuel ih =>
    intro i n h1 h2 hn
    by_cases hf : flag i
    · rw [busyWait, if_pos hf]; rfl
    · rw [busyWait, if_neg hf]
      have hne : i ≠ n := by
        intro he; rw [he] at hf; exact hf hn
      exact ih (i + 1) n (by omega) (by omega) hn

/-- Auxiliary: on an always-false flag, the bounded poll fails at every
fuel. -/
theorem busyWait_none_of_never (flag : Nat → Bool) (h : ∀ n, flag n = false) :
    ∀ fuel i, busyWait flag i fuel = none := by
  intro fuel
  induction fuel with
  | zero => intro i; rfl
  | succ fuel ih =>
    intro i
    rw [busyWait, if_neg (by simp [h i]), ih]

/-- Claim C7: the busy-wait in `Ultrasonic_readDistance` has no timeout — it
completes within some bound if and only if some poll of `g_readyFlag`
observes it set by the interrupt handler; on a flag stream that is never
set (no falling edge ever arrives) the wait fails at every bound, i.e. the
loop blocks indefinitely. -/
theorem busyWait_no_timeout (flag : Nat → Bool) :
    ((∃ fuel, (busyWait flag 0 fuel).isSome) ↔ ∃ n, flag n = true) ∧
    ((∀ n, flag n = false) → ∀ fuel, busyWait flag 0 fuel = none) := by
  constructor
  · constructor
    · rintro ⟨fuel, h⟩
      exact busyWait_flag_of_isSome flag fuel 0 h
    · rintro ⟨n, hn⟩
      exact ⟨n + 1, busyWait_isSome_of_flag flag (n + 1) 0 n (Nat.zero_le n)
        (by omega) hn⟩
  · intro h fuel
    exact busyWait_none_of_never flag h fuel 0

/-- Claim C7 witness: on the never-set flag stream the poll at bound 100
fails, by the no-timeout theorem. -/
theorem busyWait_never_ready_at_100 : busyWait neverReady 0 100 = none :=
  (busyWait_no_timeout neverReady).2 (fun _ => rfl) 100

/-- Claim C8: with `g_readyFlag` set and unconsumed and `g_edgeCount = 0`, a
further edge pair is handled with no error path (the handler is total and
only writes state) and silently overwrites the stale `g_timeHigh` with the
new capture value — last edge pair wins — leaving the flag set and the
phase at 0; moreover no handler invocation ever clears a set `g_readyFlag`,
so a sample already handed to the foreground is never retracted, and the
distance the foreground computed from a consumed `g_timeHigh` is a pure
value the handler cannot alter. -/
theorem edgeProcessing_overwrites_unconsumed (s : UltraState) (c1 c2 : Nat)
    (h0 : s.g_edgeCount = 0) (_hr : s.g_readyFlag = 1) :
    (Ultrasonic_edgeProcessing c2 (Ultrasonic_edgeProcessing c1 s)).g_timeHigh
      = c2 % 65536 ∧
    (Ultrasonic_edgeProcessing c2 (Ultrasonic_edgeProcessing c1 s)).g_readyFlag = 1 ∧
    (Ultrasonic_edgeProcessing c2 (Ultrasonic_edgeProcessing c1 s)).g_edgeCount = 0 ∧
    (∀ (s' : UltraState) (c : Nat), s'.g_readyFlag = 1 →
      (Ultrasonic_edgeProcessing c s').g_readyFlag = 1) := by
  refine ⟨?_, ?_, ?_, ?_⟩
  · simp [Ultrasonic_edgeProcessing, h0]
  · simp [Ultrasonic_edgeProcessing, h0]
  · simp [Ultrasonic_edgeProcessing, h0]
  · intro s' c h
    unfold Ultrasonic_edgeProcessing
    split_ifs <;> simp [h]

/-- Claim C8 witness: the overwrite theorem on a driver state holding an
unconsumed sample of 585 ticks, hit by a new edge pair whose falling-edge
capture is 700 ticks. -/
theorem edgeProcessing_overwrite_at_700 :
    (Ultrasonic_edgeProcessing 700 (Ultrasonic_edgeProcessing 3
        { g_timeHigh := 585, g_edgeCount := 0, g_readyFlag := 1,
          icuEdge := .RAISING, icuTimerZeroed := true })).g_timeHigh
      = 700 % 65536 ∧
    (Ultrasonic_edgeProcessing 700 (Ultrasonic_edgeProcessing 3
        { g_timeHigh := 585, g_edgeCount := 0, g_readyFlag := 1,
          icuEdge := .RAISING, icuTimerZeroed := true })).g_readyFlag = 1 ∧
    (Ultrasonic_edgeProcessing 700 (Ultrasonic_edgeProcessing 3
        { g_timeHigh := 585, g_edgeCount := 0, g_readyFlag := 1,
          icuEdge := .RAISING, icuTimerZeroed := true })).g_edgeCount = 0 ∧
    (∀ (s' : UltraState) (c : Nat), s'.g_readyFlag = 1 →
      (Ultrasonic_edgeProcessing c s').g_readyFlag = 1) :=
  edgeProcessing_overwrites_unconsumed
    { g_timeHigh := 585, g_edgeCount := 0, g_readyFlag := 1,
      icuEdge := .RAISING, icuTimerZeroed := true } 3 700 rfl rfl

/-- Claim C9: in the effect sequence of `Ultrasonic_readDistance`, the ICU
interrupt is disabled exactly once, strictly before the single clear of
`g_readyFlag` and strictly before the single read of `g_timeHigh`, so the
interrupt handler cannot write these fields concurrently with the
foreground's clear-and-read. -/
theorem readDistance_interrupt_off_before_clear_and_read :
    (Ultrasonic_readDistance_steps.filter (· == MeasureStep.icuInterruptOff)).length
      = 1 ∧
    (Ultrasonic_readDistance_steps.filter MeasureStep.clearsReadyFlag).length = 1 ∧
    (Ultrasonic_readDistance_steps.filter (· == MeasureStep.readTimeHigh)).length
      = 1 ∧
    Ultrasonic_readDistance_steps.findIdx (· == MeasureStep.icuInterruptOff) <
      Ultrasonic_readDistance_steps.findIdx MeasureStep.clearsReadyFlag ∧
    Ultrasonic_readDistance_steps.findIdx MeasureStep.clearsReadyFlag ≤
      Ultrasonic_readDistance_steps.findIdx (· == MeasureStep.readTimeHigh) ∧
    Ultrasonic_readDistance_steps.findIdx (· == MeasureStep.icuInterruptOff) <
      Ultrasonic_readDistance_steps.findIdx (· == MeasureStep.readTimeHigh) := by
  decide

/-- Auxiliary: the interrupt handler preserves membership of `g_edgeCount`
in {0, 1}. -/
theorem edgeProcessing_keeps_pair (s : UltraState) (c : Nat)
    (h : s.g_edgeCount = 0 ∨ s.g_edgeCount = 1) :
    (Ultrasonic_edgeProcessing c s).g_edgeCount = 0 ∨
    (Ultrasonic_edgeProcessing c s).g_edgeCount = 1 := by
  rcases h with h | h <;> simp [Ultrasonic_edgeProcessing, h]

/-- Auxiliary: folding any edge sequence preserves membership of
`g_edgeCount` in {0, 1}. -/
theorem runEdges_keeps_pair (caps : List Nat) (s : UltraState)
    (h : s.g_edgeCount = 0 ∨ s.g_edgeCount = 1) :
    (runEdges caps s).g_edgeCount = 0 ∨ (runEdges caps s).g_edgeCount = 1 := by
  induction caps generalizing s with
  | nil => exact h
  | cons c cs ih => exact ih (Ultrasonic_edgeProcessing c s) (edgeProcessing_keeps_pair s c h)

/-- Claim C10: `Ultrasonic_edgeProcessing` only ever toggles `g_edgeCount`
0 → 1 (rising branch) or 1 → 0 (falling branch), so from the initial value
0 every sequence of edge events keeps `g_edgeCount` in {0, 1}: the
two-valued EdgePhase cycle is preserved. -/
theorem edgeCount_invariant (caps : List Nat) (s0 s1 : UltraState) (c : Nat)
    (h0 : s0.g_edgeCount = 0) (h1 : s1.g_edgeCount = 1) :
    (Ultrasonic_edgeProcessing c s0).g_edgeCount = 1 ∧
    (Ultrasonic_edgeProcessing c s1).g_edgeCount = 0 ∧
    ((runEdges caps initUltraState).g_edgeCount = 0 ∨
     (runEdges caps initUltraState).g_edgeCount = 1) := by
  refine ⟨?_, ?_, ?_⟩
  · simp [Ultrasonic_edgeProcessing, h0]
  · simp [Ultrasonic_edgeProcessing, h1]
  · exact runEdges_keeps_pair caps initUltraState (Or.inl rfl)

/-- Claim C10 witness: the invariant theorem on the edge sequence
[3, 585, 7] from the initial state, with the toggles checked at the initial
state and at its rising-edge successor. -/
theorem edgeCount_invariant_on_three_edges :
    (Ultrasonic_edgeProcessing 9 initUltraState).g_edgeCount = 1 ∧
    (Ultrasonic_edgeProcessing 9
      (Ultrasonic_edgeProcessing 3 initUltraState)).g_edgeCount = 0 ∧
    ((runEdges [3, 585, 7] initUltraState).g_edgeCount = 0 ∨
     (runEdges [3, 585, 7] initUltraState).g_edgeCount = 1) :=
  edgeCount_invariant [3, 585, 7] initUltraState
    (Ultrasonic_edgeProcessing 3 initUltraState) 9 rfl rfl

/-- Claim C6: each band handler drives exactly the (readout, R, G, B,
buzzer) tuple of the specification's table, from any prior actuator levels:
Warning shows the numeric distance with all LEDs on; Safe with R and G on
and B off; Detected with only R on; Idle with all off; the buzzer ends off
and is never switched on, and no delay occurs, in every non-Danger handler.
Danger shows the fixed STOP message and performs exactly one
all-on-then-all-off cycle per invocation: after its first five actions all
LEDs and the buzzer are on with STOP displayed, then a 200 ms delay, then
everything is switched off followed by the second 200 ms delay, the buzzer
being on only between its single switch-on at position 1 and its single
switch-off at position 6 — the two phases of the blink cycle. -/
theorem handlers_match_alert_table (st : ActuatorState) (d : Nat) :
    runActions st (handleWarningState d)
      = ⟨true, true, true, false, some (.distanceReadout d)⟩ ∧
    runActions st (handleSafeState d)
      = ⟨true, true, false, false, some (.distanceReadout d)⟩ ∧
    runActions st (handleDetectedState d)
      = ⟨true, false, false, false, some (.distanceReadout d)⟩ ∧
    runActions st (handleIdleState d)
      = ⟨false, false, false, false, some (.distanceReadout d)⟩ ∧
    (handleWarningState d).all
      (fun a => ! (a == .buzzerOn) && ! a.isDelay) = true ∧
    (handleSafeState d).all
      (fun a => ! (a == .buzzerOn) && ! a.isDelay) = true ∧
    (handleDetectedState d).all
      (fun a => ! (a == .buzzerOn) && ! a.isDelay) = true ∧
    (handleIdleState d).all
      (fun a => ! (a == .buzzerOn) && ! a.isDelay) = true ∧
    runActions st (handleDangerState.take 5)
      = ⟨true, true, true, true, some .stopMessage⟩ ∧
    handleDangerState[5]? = some (.delayMs 200) ∧
    runActions st handleDangerState
      = ⟨false, false, false, false, some .stopMessage⟩ ∧
    handleDangerState[10]? = some (.delayMs 200) ∧
    handleDangerState.length = 11 ∧
    (handleDangerState.filter (· == AppAction.buzzerOn)).length = 1 ∧
    (handleDangerState.filter (· == AppAction.buzzerOff)).length = 1 ∧
    (handleDangerState.filter AppAction.isDelay).length = 2 ∧
    handleDangerState.findIdx (· == AppAction.buzzerOn) <
      handleDangerState.findIdx AppAction.isDelay ∧
    handleDangerState.findIdx AppAction.isDelay <
      handleDangerState.findIdx (· == AppAction.buzzerOff) := by
  obtain ⟨r, g, b, z, disp⟩ := st
  exact ⟨rfl, rfl, rfl, rfl, rfl, rfl, rfl, rfl, rfl, by decide, rfl, by decide,
    by decide, by decide, by decide, by decide, by decide, by decide⟩
